import Mathlib

/-!
Verification of the gym membership pricing engine (`gym_membership.py`).

Shallow embedding conventions:
* Currency amounts are modelled as exact rationals (`ℚ`); the Python source
  uses floats, and the specification states all amounts as exact decimals,
  so the idealized exact-arithmetic semantics is the verification target.
* Python `int` member counts are modelled as `ℤ`.
* Python dicts (`membership_plans`, `additional_features`) are association
  lists with `List.lookup`; a `KeyError` on a missing key is modelled as
  `Option.none` propagating through the computation.
* Python error-message strings returned by the validators are modelled by
  the inductive `ErrMsg`, one constructor per distinct format string in the
  source; `errKind` classifies them into the error kinds of the design
  (NotFound / Unavailable / InvalidInput / OutOfRange).
* Dynamically-typed validator arguments are modelled by `PyValue`;
  `isinstance(x, list)` holds exactly for the `PyValue.list` constructor
  (a Python tuple is not a list), `isinstance(x, int)` for `PyValue.int`.
-/

/-- Python enum `PremiumFeatureLevel` (gym_membership.py lines 33-37). -/
inductive PremiumFeatureLevel where
  | NONE
  | EXCLUSIVE_FACILITIES
  | SPECIALIZED_TRAINING
deriving DecidableEq, Repr

/-- Dataclass `MembershipPlan` (lines 40-50): name, base_cost, benefits, available. -/
structure MembershipPlan where
  name : String
  base_cost : ℚ
  benefits : List String
  available : Bool := true
deriving DecidableEq, Repr

/-- Dataclass `AdditionalFeature` (lines 53-61): name, cost, available. -/
structure AdditionalFeature where
  name : String
  cost : ℚ
  available : Bool := true
deriving DecidableEq, Repr

/-- The mutable state of a `GymMembershipManager` instance: its two catalogs
(Python dicts, modelled as insertion-ordered association lists). -/
structure Manager where
  membership_plans : List (String × MembershipPlan)
  additional_features : List (String × AdditionalFeature)
deriving DecidableEq, Repr

/-- Class constant `MEMBERSHIP_PLANS` (lines 85-104). -/
def MEMBERSHIP_PLANS : List (String × MembershipPlan) :=
  [("Basic",
    { name := "Basic", base_cost := 29.99,
      benefits := ["Access to gym equipment", "Basic locker room access"],
      available := true }),
   ("Premium",
    { name := "Premium", base_cost := 59.99,
      benefits := ["Access to gym equipment", "Premium locker room", "Sauna access"],
      available := true }),
   ("Family",
    { name := "Family", base_cost := 99.99,
      benefits := ["Up to 4 family members", "All Premium benefits", "Family lounge access"],
      available := true })]

/-- Class constant `ADDITIONAL_FEATURES` (lines 107-123). -/
def ADDITIONAL_FEATURES : List (String × AdditionalFeature) :=
  [("Personal Training", { name := "Personal Training", cost := 50.00, available := true }),
   ("Group Classes", { name := "Group Classes", cost := 30.00, available := true }),
   ("Nutritional Consulting", { name := "Nutritional Consulting", cost := 40.00, available := true })]

/-- Class constant `SPECIAL_OFFER_DISCOUNTS` (lines 126-129): (threshold, discount) pairs. -/
def SPECIAL_OFFER_DISCOUNTS : List (ℚ × ℚ) := [(200, 20), (400, 50)]

/-- `sorted(SPECIAL_OFFER_DISCOUNTS, reverse=True)` as evaluated on the concrete
constant list above (line 237): tuples sorted descending by threshold. -/
def SPECIAL_OFFER_DISCOUNTS_sorted_desc : List (ℚ × ℚ) := [(400, 50), (200, 20)]

/-- Class constant `GROUP_DISCOUNT_THRESHOLD` (line 132). -/
def GROUP_DISCOUNT_THRESHOLD : ℤ := 2

/-- Class constant `GROUP_DISCOUNT_PERCENTAGE` (line 133). -/
def GROUP_DISCOUNT_PERCENTAGE : ℚ := 0.10

/-- Class constant `PREMIUM_SURCHARGE_PERCENTAGE` (line 136). -/
def PREMIUM_SURCHARGE_PERCENTAGE : ℚ := 0.15

/-- `GymMembershipManager.__init__` (lines 138-141): the catalogs are copies of
the class constants. -/
def defaultManager : Manager :=
  { membership_plans := MEMBERSHIP_PLANS, additional_features := ADDITIONAL_FEATURES }

/-- One constructor per distinct error-message format string produced by the
three validators (lines 151-198). -/
inductive ErrMsg where
  /-- "Membership plan {name} does not exist." (line 158) -/
  | planNotFound (name : String)
  /-- "Membership plan {name} is currently unavailable." (line 161) -/
  | planUnavailable (name : String)
  /-- "Features must be provided as a list." (line 172) -/
  | featuresNotAList
  /-- "Additional feature {name} does not exist." (line 176) -/
  | featureNotFound (name : String)
  /-- "Additional feature {name} is currently unavailable." (line 179) -/
  | featureUnavailable (name : String)
  /-- "Number of members must be an integer." (line 190) -/
  | membersNotInteger
  /-- "Number of members must be at least 1." (line 193) -/
  | membersTooFew
  /-- "Number of members cannot exceed 10." (line 196) -/
  | membersTooMany
deriving DecidableEq, Repr

/-- The error kinds of the design document (spec section 7). -/
inductive ErrKind where
  | NotFound
  | Unavailable
  | InvalidInput
  | OutOfRange
deriving DecidableEq, Repr

/-- Classification of each validator error message into its design error kind
(spec section 7: NotFound = unknown plan/feature name, Unavailable = known but
disabled, InvalidInput = wrong type, OutOfRange = member count outside [1,10]). -/
def errKind : ErrMsg → ErrKind
  | .planNotFound _ => .NotFound
  | .planUnavailable _ => .Unavailable
  | .featuresNotAList => .InvalidInput
  | .featureNotFound _ => .NotFound
  | .featureUnavailable _ => .Unavailable
  | .membersNotInteger => .InvalidInput
  | .membersTooFew => .OutOfRange
  | .membersTooMany => .OutOfRange

/-- A dynamically-typed Python value, as far as the validators inspect one:
`isinstance(x, list)` holds exactly for `.list`, `isinstance(x, int)` exactly
for `.int`. A Python tuple of strings is `.tuple` (it is a sequence but not a
list). -/
inductive PyValue where
  | int (n : ℤ)
  | str (s : String)
  | list (xs : List String)
  | tuple (xs : List String)
  | none
deriving DecidableEq, Repr

/-- `validate_membership_plan` (lines 151-163). -/
def validate_membership_plan (m : Manager) (plan_name : String) : Bool × Option ErrMsg :=
  match m.membership_plans.lookup plan_name with
  | Option.none => (false, some (.planNotFound plan_name))
  | some plan =>
      if !plan.available then (false, some (.planUnavailable plan_name))
      else (true, Option.none)

/-- The `for feature_name in feature_names` loop of `validate_features`
(lines 174-181): first offending name determines the error. -/
def validateFeaturesLoop (m : Manager) : List String → Bool × Option ErrMsg
  | [] => (true, Option.none)
  | feature_name :: rest =>
      match m.additional_features.lookup feature_name with
      | Option.none => (false, some (.featureNotFound feature_name))
      | some f =>
          if !f.available then (false, some (.featureUnavailable feature_name))
          else validateFeaturesLoop m rest

/-- `validate_features` (lines 165-181): `isinstance(feature_names, list)` check,
then the per-name loop. -/
def validate_features (m : Manager) (feature_names : PyValue) : Bool × Option ErrMsg :=
  match feature_names with
  | .list names => validateFeaturesLoop m names
  | _ => (false, some .featuresNotAList)

/-- `validate_num_members` (lines 183-198). -/
def validate_num_members (num_members : PyValue) : Bool × Option ErrMsg :=
  match num_members with
  | .int n =>
      if n < 1 then (false, some .membersTooFew)
      else if n > 10 then (false, some .membersTooMany)
      else (true, Option.none)
  | _ => (false, some .membersNotInteger)

/-- `calculate_base_cost` (lines 200-202); a missing key (Python `KeyError`)
is `none`. -/
def calculate_base_cost (m : Manager) (plan_name : String) : Option ℚ :=
  (m.membership_plans.lookup plan_name).map MembershipPlan.base_cost

/-- The accumulator loop of `calculate_features_cost` (lines 206-209):
`total` starts at 0.0 and each named feature cost is added (duplicates are
each priced); a missing key is `none`. -/
def featuresCostLoop (m : Manager) (total : ℚ) : List String → Option ℚ
  | [] => some total
  | feature_name :: rest =>
      match m.additional_features.lookup feature_name with
      | Option.none => Option.none
      | some f => featuresCostLoop m (total + f.cost) rest

/-- `calculate_features_cost` (lines 204-209). -/
def calculate_features_cost (m : Manager) (feature_names : List String) : Option ℚ :=
  featuresCostLoop m 0 feature_names

/-- `calculate_group_discount` (lines 211-226); returns
(discounted_cost, discount_amount). -/
def calculate_group_discount (base_total : ℚ) (num_members : ℤ) : ℚ × ℚ :=
  if num_members < GROUP_DISCOUNT_THRESHOLD then (base_total, 0)
  else
    let discount_amount := base_total * GROUP_DISCOUNT_PERCENTAGE
    (base_total - discount_amount, discount_amount)

/-- The `for threshold, discount in sorted(...)` loop with `break`
(lines 237-240): first tier whose threshold is strictly exceeded wins. -/
def specialOfferLoop (cost : ℚ) : List (ℚ × ℚ) → ℚ
  | [] => 0
  | (threshold, discount) :: rest =>
      if threshold < cost then discount else specialOfferLoop cost rest

/-- `calculate_special_offer_discount` (lines 228-243); returns
(discounted_cost, discount_amount). -/
def calculate_special_offer_discount (cost : ℚ) : ℚ × ℚ :=
  let discount_amount := specialOfferLoop cost SPECIAL_OFFER_DISCOUNTS_sorted_desc
  (cost - discount_amount, discount_amount)

/-- `calculate_premium_surcharge` (lines 245-260); returns
(total_with_surcharge, surcharge_amount). -/
def calculate_premium_surcharge (cost : ℚ) (premium_level : PremiumFeatureLevel) : ℚ × ℚ :=
  if premium_level = PremiumFeatureLevel.NONE then (cost, 0)
  else
    let surcharge_amount := cost * PREMIUM_SURCHARGE_PERCENTAGE
    (cost + surcharge_amount, surcharge_amount)

/-- The breakdown dict returned by `calculate_total_cost` (lines 309-319). -/
structure Breakdown where
  base_cost : ℚ
  features_cost : ℚ
  subtotal : ℚ
  group_discount : ℚ
  after_group_discount : ℚ
  special_offer_discount : ℚ
  after_special_discount : ℚ
  premium_surcharge : ℚ
  total_cost : ℚ
deriving DecidableEq, Repr

/-- `calculate_total_cost` (lines 262-321): base + features, then group
discount, then special-offer discount, then premium surcharge, each stage fed
the previous stage's output; returns (total, breakdown). -/
def calculate_total_cost (m : Manager) (plan_name : String) (feature_names : List String)
    (num_members : ℤ) (premium_level : PremiumFeatureLevel) : Option (ℚ × Breakdown) :=
  (calculate_base_cost m plan_name).bind fun base_cost =>
  (calculate_features_cost m feature_names).map fun features_cost =>
    let subtotal := base_cost + features_cost
    let ag := calculate_group_discount subtotal num_members
    let asd := calculate_special_offer_discount ag.1
    let ts := calculate_premium_surcharge asd.1 premium_level
    (ts.1,
     { base_cost := base_cost
       features_cost := features_cost
       subtotal := subtotal
       group_discount := ag.2
       after_group_discount := ag.1
       special_offer_discount := asd.2
       after_special_discount := asd.1
       premium_surcharge := ts.2
       total_cost := ts.1 })

/-- The per-feature costs named by a feature list, in order (duplicates kept);
`none` when a name is missing from the catalog. The list whose sum
`calculate_features_cost` accumulates. -/
def featureCostList (m : Manager) : List String → Option (List ℚ)
  | [] => some []
  | feature_name :: rest =>
      match m.additional_features.lookup feature_name with
      | Option.none => Option.none
      | some f => (featureCostList m rest).map (fun cs => f.cost :: cs)

/-- The (name, cost) pairs rendered by the feature lines of `get_summary`
(lines 348-350): each listed feature with its catalog cost, `none` on a
missing name (Python `KeyError`). -/
def featurePairList (m : Manager) : List String → Option (List (String × ℚ))
  | [] => some []
  | feature_name :: rest =>
      match m.additional_features.lookup feature_name with
      | Option.none => Option.none
      | some f => (featurePairList m rest).map (fun ps => (feature_name, f.cost) :: ps)

/-- One appended line of the `get_summary` report (lines 338-379), with the
character-level formatting abstracted: each constructor is one `append` site,
carrying exactly the data interpolated there. -/
inductive SummaryLine where
  /-- the `=` separator lines (lines 339, 341, 379) -/
  | eqBar
  /-- "MEMBERSHIP SUMMARY" (line 340) -/
  | headerTitle
  /-- "Membership Plan: {plan_name}" (line 343) -/
  | planLine (plan_name : String)
  /-- "Number of Members: {num_members}" (line 344) -/
  | membersLine (num_members : ℤ)
  /-- "Additional Features:" (line 347) -/
  | featuresHeader
  /-- "  - {feature}: {cost}" (line 350) -/
  | featureLine (feature : String) (cost : ℚ)
  /-- "Additional Features: None" (line 352) -/
  | noFeatures
  /-- "Premium Level: {premium_level.value}" (line 355) -/
  | premiumLine (premium_level : PremiumFeatureLevel)
  /-- the `-` separator lines (lines 357, 359, 377) -/
  | dashBar
  /-- "COST BREAKDOWN" (line 358) -/
  | costHeader
  /-- "Base Membership Cost: ..." (line 361) -/
  | baseCostLine (amount : ℚ)
  /-- "Additional Features Cost: ..." (line 363) -/
  | featuresCostLine (amount : ℚ)
  /-- "Subtotal: ..." (line 364) -/
  | subtotalLine (amount : ℚ)
  /-- "Group Discount (10%): ..." (line 367) -/
  | groupDiscountLine (amount : ℚ)
  /-- "After Group Discount: ..." (line 368) -/
  | afterGroupLine (amount : ℚ)
  /-- "Special Offer Discount: ..." (line 371) -/
  | specialDiscountLine (amount : ℚ)
  /-- "After Special Discount: ..." (line 372) -/
  | afterSpecialLine (amount : ℚ)
  /-- "Premium Surcharge (15%): ..." (line 375) -/
  | surchargeLine (amount : ℚ)
  /-- "TOTAL COST: ..." (line 378) -/
  | totalLine (amount : ℚ)
deriving DecidableEq, Repr

/-- The line-building part of `get_summary` (lines 338-379): a pure formatter
over the plan name, the (feature, cost) pairs, the member count, the premium
level and the breakdown, mirroring the `summary.append` sites in source
order. The `if feature_pairs.isEmpty` test mirrors `if feature_names:` at
line 346 (the pair list has the same length as the name list). -/
def buildSummary (plan_name : String) (feature_pairs : List (String × ℚ))
    (num_members : ℤ) (premium_level : PremiumFeatureLevel) (b : Breakdown) :
    List SummaryLine :=
  [SummaryLine.eqBar, SummaryLine.headerTitle, SummaryLine.eqBar,
   SummaryLine.planLine plan_name, SummaryLine.membersLine num_members]
  ++ (if feature_pairs.isEmpty then [SummaryLine.noFeatures]
      else SummaryLine.featuresHeader ::
        feature_pairs.map (fun fp => SummaryLine.featureLine fp.1 fp.2))
  ++ (if premium_level = PremiumFeatureLevel.NONE then []
      else [SummaryLine.premiumLine premium_level])
  ++ [SummaryLine.dashBar, SummaryLine.costHeader, SummaryLine.dashBar,
      SummaryLine.baseCostLine b.base_cost]
  ++ (if 0 < b.features_cost
      then [SummaryLine.featuresCostLine b.features_cost, SummaryLine.subtotalLine b.subtotal]
      else [])
  ++ (if 0 < b.group_discount
      then [SummaryLine.groupDiscountLine b.group_discount,
            SummaryLine.afterGroupLine b.after_group_discount]
      else [])
  ++ (if 0 < b.special_offer_discount
      then [SummaryLine.specialDiscountLine b.special_offer_discount,
            SummaryLine.afterSpecialLine b.after_special_discount]
      else [])
  ++ (if 0 < b.premium_surcharge then [SummaryLine.surchargeLine b.premium_surcharge] else [])
  ++ [SummaryLine.dashBar, SummaryLine.totalLine b.total_cost, SummaryLine.eqBar]

/-- `get_summary` (lines 323-381): calls `calculate_total_cost` on the same
arguments (lines 331-336), looks the listed features up in the catalog for
their display costs, and formats; a `KeyError` in either part is `none`. -/
def get_summary (m : Manager) (plan_name : String) (feature_names : List String)
    (num_members : ℤ) (premium_level : PremiumFeatureLevel) : Option (List SummaryLine) :=
  (calculate_total_cost m plan_name feature_names num_members premium_level).bind fun tc =>
  (featurePairList m feature_names).map fun fps =>
    buildSummary plan_name fps num_members premium_level tc.2

/-!
State-passing forms of the public manager operations, for the frame property.
Each Python method body contains only reads of `self.membership_plans` /
`self.additional_features` and `return` statements — no assignment to `self`
or to any catalog entry — so its translation threads the manager state
through unchanged.
-/

/-- State-passing `validate_membership_plan`. -/
def validate_membership_planS (m : Manager) (plan_name : String) :
    (Bool × Option ErrMsg) × Manager :=
  (validate_membership_plan m plan_name, m)

/-- State-passing `validate_features`. -/
def validate_featuresS (m : Manager) (feature_names : PyValue) :
    (Bool × Option ErrMsg) × Manager :=
  (validate_features m feature_names, m)

/-- State-passing `validate_num_members` (reads no catalog at all). -/
def validate_num_membersS (m : Manager) (num_members : PyValue) :
    (Bool × Option ErrMsg) × Manager :=
  (validate_num_members num_members, m)

/-- State-passing `calculate_base_cost`. -/
def calculate_base_costS (m : Manager) (plan_name : String) : Option ℚ × Manager :=
  (calculate_base_cost m plan_name, m)

/-- State-passing `calculate_features_cost`. -/
def calculate_features_costS (m : Manager) (feature_names : List String) :
    Option ℚ × Manager :=
  (calculate_features_cost m feature_names, m)

/-- State-passing `calculate_group_discount` (reads only class constants). -/
def calculate_group_discountS (m : Manager) (base_total : ℚ) (num_members : ℤ) :
    (ℚ × ℚ) × Manager :=
  (calculate_group_discount base_total num_members, m)

/-- State-passing `calculate_special_offer_discount` (reads only class constants). -/
def calculate_special_offer_discountS (m : Manager) (cost : ℚ) : (ℚ × ℚ) × Manager :=
  (calculate_special_offer_discount cost, m)

/-- State-passing `calculate_premium_surcharge` (reads only class constants). -/
def calculate_premium_surchargeS (m : Manager) (cost : ℚ)
    (premium_level : PremiumFeatureLevel) : (ℚ × ℚ) × Manager :=
  (calculate_premium_surcharge cost premium_level, m)

/-- State-passing `calculate_total_cost`. -/
def calculate_total_costS (m : Manager) (plan_name : String) (feature_names : List String)
    (num_members : ℤ) (premium_level : PremiumFeatureLevel) :
    Option (ℚ × Breakdown) × Manager :=
  (calculate_total_cost m plan_name feature_names num_members premium_level, m)

/-- State-passing `get_summary`. -/
def get_summaryS (m : Manager) (plan_name : String) (feature_names : List String)
    (num_members : ℤ) (premium_level : PremiumFeatureLevel) :
    Option (List SummaryLine) × Manager :=
  (get_summary m plan_name feature_names num_members premium_level, m)

/-! Helper lemmas shared by several claim theorems. -/

/-- The accumulator loop of `calculate_features_cost` computes the accumulator
plus the sum of the looked-up per-feature costs. -/
theorem featuresCostLoop_eq_sum (m : Manager) :
    ∀ (names : List String) (acc : ℚ),
      featuresCostLoop m acc names =
        (featureCostList m names).map (fun cs => acc + cs.sum) := by
  intro names
  induction names with
  | nil => intro acc; simp [featuresCostLoop, featureCostList]
  | cons nm rest ih =>
      intro acc
      simp only [featuresCostLoop, featureCostList]
      cases m.additional_features.lookup nm with
      | none => rfl
      | some f =>
          simp only [ih (acc + f.cost)]
          cases hfc : featureCostList m rest with
          | none => rfl
          | some cs => simp [List.sum_cons, add_assoc]

/-- C1: the cost pipeline of `calculate_total_cost` is the fixed sequential
composition: features are summed with duplicates each priced, the group
discount acts on the subtotal, the special offer on the post-group amount,
the premium surcharge last on the post-special amount, the returned total is
((subtotal * groupFactor) - specialDiscount) * (1 + surchargeFactor) with
groupFactor in {1, 9/10} and surchargeFactor in {0, 15/100}, and the
breakdown records every intermediate value consistently. -/
theorem calculate_total_cost_composition (m : Manager) (plan_name : String)
    (feature_names : List String) (num_members : ℤ) (premium_level : PremiumFeatureLevel)
    (total : ℚ) (b : Breakdown)
    (h : calculate_total_cost m plan_name feature_names num_members premium_level =
      some (total, b)) :
    calculate_base_cost m plan_name = some b.base_cost ∧
    calculate_features_cost m feature_names = some b.features_cost ∧
    (∀ costs, featureCostList m feature_names = some costs → b.features_cost = costs.sum) ∧
    b.subtotal = b.base_cost + b.features_cost ∧
    (b.after_group_discount, b.group_discount) = calculate_group_discount b.subtotal num_members ∧
    (b.after_special_discount, b.special_offer_discount) =
      calculate_special_offer_discount b.after_group_discount ∧
    (b.total_cost, b.premium_surcharge) =
      calculate_premium_surcharge b.after_special_discount premium_level ∧
    b.after_group_discount = b.subtotal - b.group_discount ∧
    b.after_special_discount = b.after_group_discount - b.special_offer_discount ∧
    b.total_cost = b.after_special_discount + b.premium_surcharge ∧
    total = b.total_cost ∧
    total = (b.subtotal * (if 2 ≤ num_members then (9 : ℚ)/10 else 1) -
        b.special_offer_discount) *
      (1 + (if premium_level = PremiumFeatureLevel.NONE then 0 else (15 : ℚ)/100)) := by
  cases hb : calculate_base_cost m plan_name with
  | none => simp [calculate_total_cost, hb] at h
  | some bc =>
    cases hf : calculate_features_cost m feature_names with
    | none => simp [calculate_total_cost, hb, hf] at h
    | some fc =>
      simp only [calculate_total_cost, hb, hf, Option.some_bind, Option.map_some',
        Option.some.injEq, Prod.mk.injEq] at h
      obtain ⟨hT, hB⟩ := h
      subst hB
      refine ⟨?_, ?_, ?_, ?_, ?_, ?_, ?_, ?_, ?_, ?_, ?_, ?_⟩
      · rfl
      · rfl
      · intro costs hc
        have := featuresCostLoop_eq_sum m feature_names 0
        rw [calculate_features_cost, this, hc] at hf
        simp only [Option.map_some', Option.some.injEq, zero_add] at hf
        exact hf.symm
      · rfl
      · rfl
      · rfl
      · rfl
      · show (calculate_group_discount (bc + fc) num_members).1 =
          (bc + fc) - (calculate_group_discount (bc + fc) num_members).2
        simp only [calculate_group_discount]
        split <;> simp
      · simp only [calculate_special_offer_discount]
      · show (calculate_premium_surcharge _ premium_level).1 =
          _ + (calculate_premium_surcharge _ premium_level).2
        simp only [calculate_premium_surcharge]
        split <;> simp
      · exact hT.symm
      · subst hT
        show (calculate_premium_surcharge
            (calculate_special_offer_discount
              (calculate_group_discount (bc + fc) num_members).1).1 premium_level).1 = _
        have hag : (calculate_group_discount (bc + fc) num_members).1 =
            (bc + fc) * (if 2 ≤ num_members then (9 : ℚ)/10 else 1) := by
          simp only [calculate_group_discount, GROUP_DISCOUNT_THRESHOLD,
            GROUP_DISCOUNT_PERCENTAGE]
          rcases lt_or_ge num_members 2 with hn | hn
          · rw [if_pos hn, if_neg (by omega)]; ring
          · rw [if_neg (by omega), if_pos (by omega)]; norm_num; ring
        simp only [calculate_special_offer_discount, calculate_premium_surcharge,
          PREMIUM_SURCHARGE_PERCENTAGE]
        split
        · rw [hag]; ring_nf
        · rw [hag]; norm_num; ring_nf

/-- Witness for C1 at a concrete input: Basic + Personal Training, 2 members,
no premium tier. -/
theorem calculate_total_cost_composition_witness :
    calculate_total_cost defaultManager "Basic" ["Personal Training"] 2
      PremiumFeatureLevel.NONE =
      some (71.991, Breakdown.mk 29.99 50 79.99 7.999 71.991 0 71.991 0 71.991) ∧
    (71.991 : ℚ) =
      ((79.99 : ℚ) * (if (2 : ℤ) ≤ 2 then (9 : ℚ)/10 else 1) - 0) *
        (1 + (if PremiumFeatureLevel.NONE = PremiumFeatureLevel.NONE then 0 else (15 : ℚ)/100)) := by
  have h : calculate_total_cost defaultManager "Basic" ["Personal Training"] 2
      PremiumFeatureLevel.NONE =
      some (71.991, Breakdown.mk 29.99 50 79.99 7.999 71.991 0 71.991 0 71.991) := by
    norm_num [calculate_total_cost, calculate_base_cost, calculate_features_cost,
      featuresCostLoop, defaultManager, MEMBERSHIP_PLANS, ADDITIONAL_FEATURES, List.lookup,
      calculate_group_discount, calculate_special_offer_discount, specialOfferLoop,
      SPECIAL_OFFER_DISCOUNTS_sorted_desc, calculate_premium_surcharge,
      GROUP_DISCOUNT_THRESHOLD, GROUP_DISCOUNT_PERCENTAGE, PREMIUM_SURCHARGE_PERCENTAGE]
  refine ⟨h, ?_⟩
  exact (calculate_total_cost_composition defaultManager "Basic" ["Personal Training"] 2
    PremiumFeatureLevel.NONE 71.991 _ h).2.2.2.2.2.2.2.2.2.2.2

/-- C2: the special-offer discount is a step function with strict thresholds:
0 for cost at most 200, 20 for cost in (200, 400], 50 for cost above 400; the
discounted cost is the cost minus the discount, and exactly one tier applies
(the discount is one of 0, 20, 50, never a sum). -/
theorem special_offer_discount_step (x : ℚ) (hx : 0 ≤ x) :
    (calculate_special_offer_discount x).1 = x - (calculate_special_offer_discount x).2 ∧
    (x ≤ 200 → (calculate_special_offer_discount x).2 = 0) ∧
    (200 < x → x ≤ 400 → (calculate_special_offer_discount x).2 = 20) ∧
    (400 < x → (calculate_special_offer_discount x).2 = 50) ∧
    ((calculate_special_offer_discount x).2 = 0 ∨ (calculate_special_offer_discount x).2 = 20 ∨
      (calculate_special_offer_discount x).2 = 50) := by
  have hval : (calculate_special_offer_discount x).2 =
      (if (400 : ℚ) < x then (50 : ℚ) else if (200 : ℚ) < x then 20 else 0) := rfl
  refine ⟨rfl, ?_, ?_, ?_, ?_⟩
  · intro h200
    rw [hval, if_neg (by linarith), if_neg (by linarith)]
  · intro h200 h400
    rw [hval, if_neg (by linarith), if_pos (by linarith)]
  · intro h400
    rw [hval, if_pos (by linarith)]
  · rw [hval]
    split
    · exact Or.inr (Or.inr rfl)
    · split
      · exact Or.inr (Or.inl rfl)
      · exact Or.inl rfl

/-- Witness for C2 at the boundary inputs 400 and 200. -/
theorem special_offer_discount_step_witness :
    (calculate_special_offer_discount 400).2 = 20 ∧
    (calculate_special_offer_discount 200).2 = 0 :=
  ⟨(special_offer_discount_step 400 (by norm_num)).2.2.1 (by norm_num) (by norm_num),
   (special_offer_discount_step 200 (by norm_num)).2.1 (by norm_num)⟩

/-- C3: the group discount is 0 with the subtotal returned unchanged for fewer
than 2 members, and is subtotal * 1/10 with discounted cost
subtotal - subtotal * 1/10 = subtotal * 9/10 for 2 or more members. -/
theorem group_discount_spec (s : ℚ) (n : ℤ) :
    (n < 2 → calculate_group_discount s n = (s, 0)) ∧
    (2 ≤ n →
      calculate_group_discount s n = (s - s * (1/10), s * (1/10)) ∧
      (calculate_group_discount s n).1 = s * (9/10)) := by
  constructor
  · intro hn
    rw [calculate_group_discount, if_pos (by simpa [GROUP_DISCOUNT_THRESHOLD] using hn)]
  · intro hn
    rw [calculate_group_discount, if_neg (by simp [GROUP_DISCOUNT_THRESHOLD]; omega)]
    constructor
    · norm_num [GROUP_DISCOUNT_PERCENTAGE]
    · norm_num [GROUP_DISCOUNT_PERCENTAGE]; ring

/-- Witness for C3 at subtotal 100 with 1 member and with 2 members. -/
theorem group_discount_spec_witness :
    calculate_group_discount 100 1 = (100, 0) ∧
    calculate_group_discount 100 2 = (90, 10) ∧
    (calculate_group_discount 100 2).1 = 90 := by
  refine ⟨(group_discount_spec 100 1).1 (by norm_num), ?_, ?_⟩
  · have h := ((group_discount_spec 100 2).2 (by norm_num)).1
    norm_num at h
    exact h
  · have h := ((group_discount_spec 100 2).2 (by norm_num)).2
    norm_num at h
    exact h

/-- C4: the premium surcharge is 0 with the cost returned unchanged for tier
NONE, and is cost * 15/100 with total cost + cost * 15/100 for every other
tier; EXCLUSIVE_FACILITIES and SPECIALIZED_TRAINING are treated identically. -/
theorem premium_surcharge_spec (c : ℚ) (t : PremiumFeatureLevel) :
    calculate_premium_surcharge c PremiumFeatureLevel.NONE = (c, 0) ∧
    (t ≠ PremiumFeatureLevel.NONE →
      calculate_premium_surcharge c t = (c + c * (15/100), c * (15/100))) ∧
    calculate_premium_surcharge c PremiumFeatureLevel.EXCLUSIVE_FACILITIES =
      calculate_premium_surcharge c PremiumFeatureLevel.SPECIALIZED_TRAINING := by
  refine ⟨rfl, ?_, ?_⟩
  · intro ht
    rw [calculate_premium_surcharge, if_neg ht]
    norm_num [PREMIUM_SURCHARGE_PERCENTAGE]
  · cases t <;> rfl

/-- Witness for C4 at cost 100 with tier EXCLUSIVE_FACILITIES. -/
theorem premium_surcharge_spec_witness :
    calculate_premium_surcharge 100 PremiumFeatureLevel.NONE = (100, 0) ∧
    calculate_premium_surcharge 100 PremiumFeatureLevel.EXCLUSIVE_FACILITIES = (115, 15) := by
  refine ⟨(premium_surcharge_spec 100 PremiumFeatureLevel.NONE).1, ?_⟩
  have h := (premium_surcharge_spec 100 PremiumFeatureLevel.EXCLUSIVE_FACILITIES).2.1
    (by intro h; exact PremiumFeatureLevel.noConfusion h)
  norm_num at h
  exact h

/-- Catalog lookup facts for the three seeded plans (proved by reduction). -/
theorem lookup_plan_Basic :
    defaultManager.membership_plans.lookup "Basic" =
      some (MembershipPlan.mk "Basic" 29.99
        ["Access to gym equipment", "Basic locker room access"] true) := rfl

theorem lookup_plan_Premium :
    defaultManager.membership_plans.lookup "Premium" =
      some (MembershipPlan.mk "Premium" 59.99
        ["Access to gym equipment", "Premium locker room", "Sauna access"] true) := rfl

theorem lookup_plan_Family :
    defaultManager.membership_plans.lookup "Family" =
      some (MembershipPlan.mk "Family" 99.99
        ["Up to 4 family members", "All Premium benefits", "Family lounge access"] true) := rfl

/-- Catalog lookup facts for the three seeded features (proved by reduction). -/
theorem lookup_feature_PT :
    defaultManager.additional_features.lookup "Personal Training" =
      some (AdditionalFeature.mk "Personal Training" 50.00 true) := rfl

theorem lookup_feature_GC :
    defaultManager.additional_features.lookup "Group Classes" =
      some (AdditionalFeature.mk "Group Classes" 30.00 true) := rfl

theorem lookup_feature_NC :
    defaultManager.additional_features.lookup "Nutritional Consulting" =
      some (AdditionalFeature.mk "Nutritional Consulting" 40.00 true) := rfl

/-- C5: with the seed catalogs, `calculate_total_cost` reproduces all six
end-to-end scenarios of spec section 8 exactly: each equality below gives the
full returned total and breakdown. -/
theorem end_to_end_scenarios :
    calculate_total_cost defaultManager "Basic" [] 1 PremiumFeatureLevel.NONE =
      some (29.99, Breakdown.mk 29.99 0 29.99 0 29.99 0 29.99 0 29.99) ∧
    calculate_total_cost defaultManager "Basic" ["Personal Training"] 1
      PremiumFeatureLevel.NONE =
      some (79.99, Breakdown.mk 29.99 50 79.99 0 79.99 0 79.99 0 79.99) ∧
    calculate_total_cost defaultManager "Basic" [] 2 PremiumFeatureLevel.NONE =
      some (26.991, Breakdown.mk 29.99 0 29.99 2.999 26.991 0 26.991 0 26.991) ∧
    calculate_total_cost defaultManager "Family"
      ["Personal Training", "Group Classes", "Nutritional Consulting"] 1
      PremiumFeatureLevel.NONE =
      some (199.99, Breakdown.mk 99.99 120 219.99 0 219.99 20 199.99 0 199.99) ∧
    calculate_total_cost defaultManager "Premium" [] 1
      PremiumFeatureLevel.EXCLUSIVE_FACILITIES =
      some (68.9885, Breakdown.mk 59.99 0 59.99 0 59.99 0 59.99 8.9985 68.9885) ∧
    calculate_total_cost defaultManager "Family"
      ["Personal Training", "Group Classes", "Nutritional Consulting"] 2
      PremiumFeatureLevel.EXCLUSIVE_FACILITIES =
      some (227.68965, Breakdown.mk 99.99 120 219.99 21.999 197.991 0 197.991
        29.69865 227.68965) := by
  refine ⟨?_, ?_, ?_, ?_, ?_, ?_⟩ <;>
    norm_num [calculate_total_cost, calculate_base_cost, calculate_features_cost,
      featuresCostLoop, lookup_plan_Basic, lookup_plan_Premium, lookup_plan_Family,
      lookup_feature_PT, lookup_feature_GC, lookup_feature_NC,
      calculate_group_discount, calculate_special_offer_discount, specialOfferLoop,
      SPECIAL_OFFER_DISCOUNTS_sorted_desc, calculate_premium_surcharge,
      GROUP_DISCOUNT_THRESHOLD, GROUP_DISCOUNT_PERCENTAGE, PREMIUM_SURCHARGE_PERCENTAGE] <;>
    simp

/-- Step equations for the feature-validation loop. -/
theorem validateFeaturesLoop_cons_none (m : Manager) (nm : String) (rest : List String)
    (h : m.additional_features.lookup nm = Option.none) :
    validateFeaturesLoop m (nm :: rest) = (false, some (ErrMsg.featureNotFound nm)) := by
  rw [show validateFeaturesLoop m (nm :: rest) =
    (match m.additional_features.lookup nm with
     | Option.none => (false, some (ErrMsg.featureNotFound nm))
     | some f =>
        if !f.available then (false, some (ErrMsg.featureUnavailable nm))
        else validateFeaturesLoop m rest) from rfl, h]

theorem validateFeaturesLoop_cons_some (m : Manager) (nm : String) (rest : List String)
    (f : AdditionalFeature) (h : m.additional_features.lookup nm = some f) :
    validateFeaturesLoop m (nm :: rest) =
      if !f.available then (false, some (ErrMsg.featureUnavailable nm))
      else validateFeaturesLoop m rest := by
  rw [show validateFeaturesLoop m (nm :: rest) =
    (match m.additional_features.lookup nm with
     | Option.none => (false, some (ErrMsg.featureNotFound nm))
     | some f =>
        if !f.available then (false, some (ErrMsg.featureUnavailable nm))
        else validateFeaturesLoop m rest) from rfl, h]

/-- The feature-validation loop succeeds exactly when every named feature is
known and available. -/
theorem validateFeaturesLoop_ok_iff (m : Manager) :
    ∀ names : List String,
      validateFeaturesLoop m names = (true, Option.none) ↔
        ∀ nm ∈ names, ∃ f, m.additional_features.lookup nm = some f ∧ f.available = true := by
  intro names
  induction names with
  | nil => simp [validateFeaturesLoop]
  | cons nm rest ih =>
      cases hlk : m.additional_features.lookup nm with
      | none =>
          rw [validateFeaturesLoop_cons_none m nm rest hlk]
          constructor
          · intro h
            exact absurd h (by simp)
          · intro h
            obtain ⟨f, hf, -⟩ := h nm (List.mem_cons_self nm rest)
            rw [hlk] at hf
            exact Option.noConfusion hf
      | some f =>
          rw [validateFeaturesLoop_cons_some m nm rest f hlk]
          cases hav : f.available with
          | false =>
              simp only [Bool.not_false, if_true]
              constructor
              · intro h
                exact absurd h (by simp)
              · intro h
                obtain ⟨g, hg, hgav⟩ := h nm (List.mem_cons_self nm rest)
                rw [hlk] at hg
                obtain rfl := Option.some.inj hg
                rw [hav] at hgav
                exact Bool.noConfusion hgav
          | true =>
              simp only [Bool.not_true, Bool.false_eq_true, if_false, ih, List.mem_cons]
              constructor
              · intro h nm2 hmem
                rcases hmem with rfl | hmem2
                · exact ⟨f, hlk, hav⟩
                · exact h nm2 hmem2
              · intro h nm2 hmem2
                exact h nm2 (Or.inr hmem2)

/-- The feature-validation loop either succeeds cleanly or fails with a
message. -/
theorem validateFeaturesLoop_cases (m : Manager) :
    ∀ names : List String,
      validateFeaturesLoop m names = (true, Option.none) ∨
        ∃ msg, validateFeaturesLoop m names = (false, some msg) := by
  intro names
  induction names with
  | nil => exact Or.inl rfl
  | cons nm rest ih =>
      cases hlk : m.additional_features.lookup nm with
      | none => exact Or.inr ⟨_, validateFeaturesLoop_cons_none m nm rest hlk⟩
      | some f =>
          rw [validateFeaturesLoop_cons_some m nm rest f hlk]
          cases hav : f.available with
          | false => exact Or.inr ⟨ErrMsg.featureUnavailable nm, by simp⟩
          | true => simpa using ih

/-- When the feature-validation loop fails, the message names some listed
feature and is a NotFound message for an unknown name or an Unavailable
message for a disabled feature. -/
theorem validateFeaturesLoop_fail (m : Manager) :
    ∀ (names : List String) (msg : ErrMsg),
      validateFeaturesLoop m names = (false, some msg) →
        ∃ nm ∈ names,
          (m.additional_features.lookup nm = Option.none ∧ msg = ErrMsg.featureNotFound nm) ∨
          (∃ f, m.additional_features.lookup nm = some f ∧ f.available = false ∧
            msg = ErrMsg.featureUnavailable nm) := by
  intro names
  induction names with
  | nil =>
      intro msg h
      exact absurd h (by simp [validateFeaturesLoop])
  | cons nm rest ih =>
      intro msg h
      cases hlk : m.additional_features.lookup nm with
      | none =>
          rw [validateFeaturesLoop_cons_none m nm rest hlk] at h
          obtain ⟨-, hmsg⟩ := Prod.mk.inj h
          exact ⟨nm, List.mem_cons_self nm rest,
            Or.inl ⟨hlk, (Option.some.inj hmsg).symm⟩⟩
      | some f =>
          rw [validateFeaturesLoop_cons_some m nm rest f hlk] at h
          cases hav : f.available with
          | false =>
              rw [hav, Bool.not_false, if_pos rfl] at h
              obtain ⟨-, hmsg⟩ := Prod.mk.inj h
              exact ⟨nm, List.mem_cons_self nm rest,
                Or.inr ⟨f, hlk, hav, (Option.some.inj hmsg).symm⟩⟩
          | true =>
              rw [hav, Bool.not_true] at h
              simp only [Bool.false_eq_true, if_false] at h
              obtain ⟨nm2, hmem, hres⟩ := ih msg h
              exact ⟨nm2, List.mem_cons_of_mem nm hmem, hres⟩

/-- C6 counterexample: an empty tuple IS a (empty) sequence of strings, yet
`validate_features` rejects it with the InvalidInput-kind message, because the
source checks `isinstance(feature_names, list)`, not sequence-hood; so "any
sequence passes the sequence check" and "the empty sequence always validates"
are both false on the code. -/
theorem validate_features_rejects_tuple :
    validate_features defaultManager (PyValue.tuple []) =
      (false, some ErrMsg.featuresNotAList) ∧
    errKind ErrMsg.featuresNotAList = ErrKind.InvalidInput :=
  ⟨rfl, rfl⟩

/-- C6 amended: `validate_features` fails with an InvalidInput-kind result
exactly when its argument is not a list (a tuple, like any non-list, is
rejected); for each name in a list it fails with a NotFound-kind result for
unknown names and an Unavailable-kind result for known-but-disabled features;
and the empty list always validates successfully. -/
theorem validate_features_amended (m : Manager) (v : PyValue) (names : List String) :
    ((∃ msg, (validate_features m v).2 = some msg ∧ errKind msg = ErrKind.InvalidInput) ↔
      ∀ xs, v ≠ PyValue.list xs) ∧
    validate_features m (PyValue.list []) = (true, Option.none) ∧
    (validate_features m (PyValue.list names) = (true, Option.none) ↔
      ∀ nm ∈ names, ∃ f, m.additional_features.lookup nm = some f ∧ f.available = true) ∧
    (∀ msg, validate_features m (PyValue.list names) = (false, some msg) →
      ∃ nm ∈ names,
        (m.additional_features.lookup nm = Option.none ∧ msg = ErrMsg.featureNotFound nm ∧
          errKind msg = ErrKind.NotFound) ∨
        (∃ f, m.additional_features.lookup nm = some f ∧ f.available = false ∧
          msg = ErrMsg.featureUnavailable nm ∧ errKind msg = ErrKind.Unavailable)) := by
  refine ⟨?_, rfl, ?_, ?_⟩
  · constructor
    · rintro ⟨msg, hmsg, hkind⟩ xs rfl
      rcases validateFeaturesLoop_cases m xs with hok | ⟨msg', hfail⟩
      · rw [show validate_features m (PyValue.list xs) = validateFeaturesLoop m xs from rfl,
          hok] at hmsg
        exact Option.noConfusion hmsg
      · rw [show validate_features m (PyValue.list xs) = validateFeaturesLoop m xs from rfl,
          hfail] at hmsg
        have hmm := Option.some.inj hmsg
        obtain ⟨nm, -, hcase⟩ := validateFeaturesLoop_fail m xs msg' hfail
        rcases hcase with ⟨-, h2⟩ | ⟨f, -, -, h2⟩ <;>
          rw [← hmm, h2] at hkind <;> exact ErrKind.noConfusion hkind
    · intro hnl
      cases v with
      | list xs => exact absurd rfl (hnl xs)
      | int k => exact ⟨ErrMsg.featuresNotAList, rfl, rfl⟩
      | str s => exact ⟨ErrMsg.featuresNotAList, rfl, rfl⟩
      | tuple xs => exact ⟨ErrMsg.featuresNotAList, rfl, rfl⟩
      | none => exact ⟨ErrMsg.featuresNotAList, rfl, rfl⟩
  · exact validateFeaturesLoop_ok_iff m names
  · intro msg h
    obtain ⟨nm, hmem, hcase⟩ := validateFeaturesLoop_fail m names msg h
    refine ⟨nm, hmem, ?_⟩
    rcases hcase with ⟨hlk, rfl⟩ | ⟨f, hlk, hav, rfl⟩
    · exact Or.inl ⟨hlk, rfl, rfl⟩
    · exact Or.inr ⟨f, hlk, hav, rfl, rfl⟩

/-- Witness for the amended C6 at concrete inputs: a tuple is rejected with an
InvalidInput-kind message, the empty list validates, and a singleton list of a
known available feature validates. -/
theorem validate_features_amended_witness :
    (∃ msg, (validate_features defaultManager (PyValue.tuple [])).2 = some msg ∧
      errKind msg = ErrKind.InvalidInput) ∧
    validate_features defaultManager (PyValue.list []) = (true, Option.none) ∧
    validate_features defaultManager (PyValue.list ["Personal Training"]) =
      (true, Option.none) := by
  have h := validate_features_amended defaultManager (PyValue.tuple []) ["Personal Training"]
  refine ⟨h.1.mpr ?_, h.2.1, h.2.2.1.mpr ?_⟩
  · intro xs hx; exact PyValue.noConfusion hx
  · intro nm hnm
    rw [List.mem_singleton] at hnm
    subst hnm
    exact ⟨_, lookup_feature_PT, rfl⟩

/-- C7: `validate_num_members` fails with the InvalidInput-kind message for
any non-integer input, with an OutOfRange-kind message for integers below 1 or
above 10, succeeds on 1..10, and the three failure messages are mutually
distinguishable from each other and from the NotFound messages of plan and
feature validation. -/
theorem validate_num_members_spec (v : PyValue) (n : ℤ) :
    ((∀ k, v ≠ PyValue.int k) →
      validate_num_members v = (false, some ErrMsg.membersNotInteger) ∧
      errKind ErrMsg.membersNotInteger = ErrKind.InvalidInput) ∧
    (n < 1 →
      validate_num_members (PyValue.int n) = (false, some ErrMsg.membersTooFew) ∧
      errKind ErrMsg.membersTooFew = ErrKind.OutOfRange) ∧
    (10 < n →
      validate_num_members (PyValue.int n) = (false, some ErrMsg.membersTooMany) ∧
      errKind ErrMsg.membersTooMany = ErrKind.OutOfRange) ∧
    (1 ≤ n → n ≤ 10 → validate_num_members (PyValue.int n) = (true, Option.none)) ∧
    (ErrMsg.membersNotInteger ≠ ErrMsg.membersTooFew ∧
      ErrMsg.membersNotInteger ≠ ErrMsg.membersTooMany ∧
      ErrMsg.membersTooFew ≠ ErrMsg.membersTooMany) ∧
    (∀ s, ErrMsg.membersNotInteger ≠ ErrMsg.planNotFound s ∧
      ErrMsg.membersNotInteger ≠ ErrMsg.featureNotFound s ∧
      ErrMsg.membersTooFew ≠ ErrMsg.planNotFound s ∧
      ErrMsg.membersTooFew ≠ ErrMsg.featureNotFound s ∧
      ErrMsg.membersTooMany ≠ ErrMsg.planNotFound s ∧
      ErrMsg.membersTooMany ≠ ErrMsg.featureNotFound s) := by
  refine ⟨?_, ?_, ?_, ?_, by refine ⟨?_, ?_, ?_⟩ <;> simp, ?_⟩
  · intro h
    cases v with
    | int k => exact absurd rfl (h k)
    | str s => exact ⟨rfl, rfl⟩
    | list xs => exact ⟨rfl, rfl⟩
    | tuple xs => exact ⟨rfl, rfl⟩
    | none => exact ⟨rfl, rfl⟩
  · intro hn
    refine ⟨?_, rfl⟩
    show (if n < 1 then ((false : Bool), some ErrMsg.membersTooFew)
      else if n > 10 then ((false : Bool), some ErrMsg.membersTooMany)
      else ((true : Bool), Option.none)) = _
    rw [if_pos hn]
  · intro hn
    refine ⟨?_, rfl⟩
    show (if n < 1 then ((false : Bool), some ErrMsg.membersTooFew)
      else if n > 10 then ((false : Bool), some ErrMsg.membersTooMany)
      else ((true : Bool), Option.none)) = _
    rw [if_neg (by omega), if_pos (by omega)]
  · intro h1 h10
    show (if n < 1 then ((false : Bool), some ErrMsg.membersTooFew)
      else if n > 10 then ((false : Bool), some ErrMsg.membersTooMany)
      else ((true : Bool), Option.none)) = _
    rw [if_neg (by omega), if_neg (by omega)]
  · intro s
    refine ⟨?_, ?_, ?_, ?_, ?_, ?_⟩ <;> simp

/-- Witness for C7 at concrete inputs: a string input, 0, 11 and 5. -/
theorem validate_num_members_spec_witness :
    validate_num_members (PyValue.str "two") = (false, some ErrMsg.membersNotInteger) ∧
    validate_num_members (PyValue.int 0) = (false, some ErrMsg.membersTooFew) ∧
    validate_num_members (PyValue.int 11) = (false, some ErrMsg.membersTooMany) ∧
    validate_num_members (PyValue.int 5) = (true, Option.none) := by
  have h1 := (validate_num_members_spec (PyValue.str "two") 0).1
    (by intro k h; exact PyValue.noConfusion h)
  have h2 := (validate_num_members_spec (PyValue.str "two") 0).2.1 (by norm_num)
  have h3 := (validate_num_members_spec (PyValue.str "two") 11).2.2.1 (by norm_num)
  have h4 := (validate_num_members_spec (PyValue.str "two") 5).2.2.2.1
    (by norm_num) (by norm_num)
  exact ⟨h1.1, h2.1, h3.1, h4⟩

/-- Step equation for the features-cost loop on a successful lookup. -/
theorem featuresCostLoop_cons_some (m : Manager) (nm : String) (rest : List String)
    (acc : ℚ) (f : AdditionalFeature) (h : m.additional_features.lookup nm = some f) :
    featuresCostLoop m acc (nm :: rest) = featuresCostLoop m (acc + f.cost) rest := by
  rw [show featuresCostLoop m acc (nm :: rest) =
    (match m.additional_features.lookup nm with
     | Option.none => Option.none
     | some f => featuresCostLoop m (acc + f.cost) rest) from rfl, h]

/-- When every listed feature name is in the catalog, the features-cost loop
succeeds from any accumulator. -/
theorem featuresCostLoop_isSome (m : Manager) :
    ∀ names : List String,
      (∀ nm ∈ names, ∃ f, m.additional_features.lookup nm = some f) →
      ∀ acc : ℚ, ∃ tot, featuresCostLoop m acc names = some tot := by
  intro names
  induction names with
  | nil => exact fun _ acc => ⟨acc, rfl⟩
  | cons nm rest ih =>
      intro h acc
      obtain ⟨f, hf⟩ := h nm (List.mem_cons_self nm rest)
      rw [featuresCostLoop_cons_some m nm rest acc f hf]
      exact ih (fun nm2 hmem => h nm2 (List.mem_cons_of_mem nm hmem)) (acc + f.cost)

/-- C9: if plan validation and feature validation both succeed, then
`calculate_total_cost` succeeds for every member count and premium tier: the
catalog lookups inside `calculate_base_cost` and `calculate_features_cost`
cannot fail. -/
theorem validated_calculation_succeeds (m : Manager) (plan_name : String)
    (feature_names : List String) (num_members : ℤ) (premium_level : PremiumFeatureLevel)
    (hp : (validate_membership_plan m plan_name).1 = true)
    (hf : (validate_features m (PyValue.list feature_names)).1 = true) :
    ∃ total b,
      calculate_total_cost m plan_name feature_names num_members premium_level =
        some (total, b) := by
  have hsome : ∃ pl, m.membership_plans.lookup plan_name = some pl := by
    cases hlp : m.membership_plans.lookup plan_name with
    | none =>
        rw [show validate_membership_plan m plan_name =
          (match m.membership_plans.lookup plan_name with
           | Option.none => ((false : Bool), some (ErrMsg.planNotFound plan_name))
           | some plan =>
              if !plan.available then ((false : Bool), some (ErrMsg.planUnavailable plan_name))
              else ((true : Bool), Option.none)) from rfl, hlp] at hp
        exact Bool.noConfusion hp
    | some pl => exact ⟨pl, rfl⟩
  obtain ⟨pl, hlp⟩ := hsome
  have hloop : validateFeaturesLoop m feature_names = (true, Option.none) := by
    rcases validateFeaturesLoop_cases m feature_names with h | ⟨msg, h⟩
    · exact h
    · rw [show validate_features m (PyValue.list feature_names) =
        validateFeaturesLoop m feature_names from rfl, h] at hf
      exact Bool.noConfusion hf
  have hall := (validateFeaturesLoop_ok_iff m feature_names).mp hloop
  obtain ⟨tot, htot⟩ := featuresCostLoop_isSome m feature_names
    (fun nm hmem => (hall nm hmem).imp (fun f hf2 => hf2.1)) 0
  have hs : (calculate_total_cost m plan_name feature_names num_members
      premium_level).isSome = true := by
    unfold calculate_total_cost calculate_base_cost calculate_features_cost
    rw [hlp, htot]
    rfl
  obtain ⟨x, hx2⟩ := Option.isSome_iff_exists.mp hs
  exact ⟨x.1, x.2, by rw [hx2]⟩

/-- Witness for C9 at a concrete validated selection. -/
theorem validated_calculation_succeeds_witness :
    (validate_membership_plan defaultManager "Basic").1 = true ∧
    (validate_features defaultManager (PyValue.list ["Group Classes"])).1 = true ∧
    ∃ total b,
      calculate_total_cost defaultManager "Basic" ["Group Classes"] 1
        PremiumFeatureLevel.NONE = some (total, b) :=
  ⟨rfl, rfl,
   validated_calculation_succeeds defaultManager "Basic" ["Group Classes"] 1
     PremiumFeatureLevel.NONE rfl rfl⟩

/-- C10: every public manager operation other than catalog initialization
leaves the two catalogs (and so every availability flag and cost in them)
unchanged, and repeating an operation against the resulting state returns an
equal result. -/
theorem manager_ops_preserve_catalogs (m : Manager) (p : String) (v w : PyValue)
    (f : List String) (s c : ℚ) (n : ℤ) (t : PremiumFeatureLevel) :
    (validate_membership_planS m p).2 = m ∧
    (validate_featuresS m v).2 = m ∧
    (validate_num_membersS m w).2 = m ∧
    (calculate_base_costS m p).2 = m ∧
    (calculate_features_costS m f).2 = m ∧
    (calculate_group_discountS m s n).2 = m ∧
    (calculate_special_offer_discountS m c).2 = m ∧
    (calculate_premium_surchargeS m c t).2 = m ∧
    (calculate_total_costS m p f n t).2 = m ∧
    (get_summaryS m p f n t).2 = m ∧
    (calculate_total_costS (calculate_total_costS m p f n t).2 p f n t).1 =
      (calculate_total_costS m p f n t).1 ∧
    (get_summaryS (get_summaryS m p f n t).2 p f n t).1 = (get_summaryS m p f n t).1 :=
  ⟨rfl, rfl, rfl, rfl, rfl, rfl, rfl, rfl, rfl, rfl, rfl, rfl⟩

/-- Unfolding equation for association-list lookup on a cons cell. -/
theorem lookup_cons_eq {α β : Type} [BEq α] (a k : α) (b : β) (es : List (α × β)) :
    List.lookup a ((k, b) :: es) = if a == k then some b else List.lookup a es := by
  cases h : a == k <;> simp [List.lookup, h]

/-- Every plan in the seed catalog has a non-negative base cost. -/
theorem default_plan_base_nonneg (p : String) (pl : MembershipPlan)
    (h : defaultManager.membership_plans.lookup p = some pl) : 0 ≤ pl.base_cost := by
  rw [show defaultManager.membership_plans = MEMBERSHIP_PLANS from rfl, MEMBERSHIP_PLANS,
    lookup_cons_eq, lookup_cons_eq, lookup_cons_eq] at h
  split_ifs at h <;>
    first
      | (obtain rfl := (Option.some.inj h).symm; norm_num)
      | exact absurd h (by simp [List.lookup])

/-- Every feature in the seed catalog has a non-negative cost. -/
theorem default_feature_cost_nonneg (nm : String) (f : AdditionalFeature)
    (h : defaultManager.additional_features.lookup nm = some f) : 0 ≤ f.cost := by
  rw [show defaultManager.additional_features = ADDITIONAL_FEATURES from rfl,
    ADDITIONAL_FEATURES, lookup_cons_eq, lookup_cons_eq, lookup_cons_eq] at h
  split_ifs at h <;>
    first
      | (obtain rfl := (Option.some.inj h).symm; norm_num)
      | exact absurd h (by simp [List.lookup])

/-- Step equation for the features-cost loop on a failed lookup. -/
theorem featuresCostLoop_cons_none (m : Manager) (nm : String) (rest : List String)
    (acc : ℚ) (h : m.additional_features.lookup nm = Option.none) :
    featuresCostLoop m acc (nm :: rest) = Option.none := by
  rw [show featuresCostLoop m acc (nm :: rest) =
    (match m.additional_features.lookup nm with
     | Option.none => Option.none
     | some f => featuresCostLoop m (acc + f.cost) rest) from rfl, h]

/-- Against the seed catalog, the features-cost loop never drops below its
accumulator floor. -/
theorem featuresCostLoop_nonneg :
    ∀ (names : List String) (acc tot : ℚ), 0 ≤ acc →
      featuresCostLoop defaultManager acc names = some tot → 0 ≤ tot := by
  intro names
  induction names with
  | nil =>
      intro acc tot hacc h
      obtain rfl := Option.some.inj h
      exact hacc
  | cons nm rest ih =>
      intro acc tot hacc h
      cases hlk : defaultManager.additional_features.lookup nm with
      | none =>
          rw [featuresCostLoop_cons_none defaultManager nm rest acc hlk] at h
          exact Option.noConfusion h
      | some f =>
          rw [featuresCostLoop_cons_some defaultManager nm rest acc f hlk] at h
          have hc := default_feature_cost_nonneg nm f hlk
          exact ih (acc + f.cost) tot (by linarith) h

/-- Both outputs of the group-discount stage are non-negative on a
non-negative subtotal. -/
theorem calculate_group_discount_nonneg (s : ℚ) (n : ℤ) (hs : 0 ≤ s) :
    0 ≤ (calculate_group_discount s n).1 ∧ 0 ≤ (calculate_group_discount s n).2 := by
  rw [calculate_group_discount]
  split
  · exact ⟨hs, le_refl 0⟩
  · constructor <;> · simp only [GROUP_DISCOUNT_PERCENTAGE]; norm_num; linarith

/-- Both outputs of the special-offer stage are non-negative on a
non-negative cost. -/
theorem calculate_special_offer_discount_nonneg (x : ℚ) (hx : 0 ≤ x) :
    0 ≤ (calculate_special_offer_discount x).1 ∧
    0 ≤ (calculate_special_offer_discount x).2 := by
  have hval : calculate_special_offer_discount x =
      (x - (if (400 : ℚ) < x then (50 : ℚ) else if (200 : ℚ) < x then 20 else 0),
       (if (400 : ℚ) < x then (50 : ℚ) else if (200 : ℚ) < x then 20 else 0)) := rfl
  rw [hval]
  split_ifs <;> constructor <;> simp <;> linarith

/-- The premium-surcharge amount is non-negative on a non-negative cost. -/
theorem calculate_premium_surcharge_nonneg (c : ℚ) (t : PremiumFeatureLevel) (hc : 0 ≤ c) :
    0 ≤ (calculate_premium_surcharge c t).2 := by
  rw [calculate_premium_surcharge]
  split
  · exact le_refl 0
  · simp only [PREMIUM_SURCHARGE_PERCENTAGE]; norm_num; linarith

/-- Membership in an if-then-else of two lists. -/
theorem mem_ite_lists {α : Type} (c : Prop) [Decidable c] (l1 l2 : List α) (a : α) :
    a ∈ (if c then l1 else l2) ↔ (c ∧ a ∈ l1) ∨ (¬c ∧ a ∈ l2) := by
  by_cases h : c
  · rw [if_pos h]; simp [h]
  · rw [if_neg h]; simp [h]

/-- Step equations for the feature-pair list. -/
theorem featurePairList_cons_some (m : Manager) (nm : String) (rest : List String)
    (f : AdditionalFeature) (h : m.additional_features.lookup nm = some f) :
    featurePairList m (nm :: rest) =
      (featurePairList m rest).map (fun ps => (nm, f.cost) :: ps) := by
  rw [show featurePairList m (nm :: rest) =
    (match m.additional_features.lookup nm with
     | Option.none => Option.none
     | some f => (featurePairList m rest).map (fun ps => (nm, f.cost) :: ps)) from rfl, h]

/-- When every listed feature name is in the catalog, the feature-pair list
succeeds. -/
theorem featurePairList_isSome (m : Manager) :
    ∀ names : List String,
      (∀ nm ∈ names, ∃ f, m.additional_features.lookup nm = some f) →
      ∃ fps, featurePairList m names = some fps := by
  intro names
  induction names with
  | nil => exact fun _ => ⟨[], rfl⟩
  | cons nm rest ih =>
      intro h
      obtain ⟨f, hf⟩ := h nm (List.mem_cons_self nm rest)
      obtain ⟨fps, hfps⟩ := ih (fun nm2 hmem => h nm2 (List.mem_cons_of_mem nm hmem))
      exact ⟨(nm, f.cost) :: fps, by rw [featurePairList_cons_some m nm rest f hf, hfps]; rfl⟩

/-- Closed form of `calculate_total_cost` once both catalog lookups are
resolved. -/
theorem calculate_total_cost_eq (m : Manager) (plan_name : String)
    (feature_names : List String) (num_members : ℤ) (premium_level : PremiumFeatureLevel)
    (pl : MembershipPlan) (tot : ℚ)
    (hlp : m.membership_plans.lookup plan_name = some pl)
    (htot : featuresCostLoop m 0 feature_names = some tot) :
    calculate_total_cost m plan_name feature_names num_members premium_level =
      some ((calculate_premium_surcharge (calculate_special_offer_discount
          (calculate_group_discount (pl.base_cost + tot) num_members).1).1 premium_level).1,
        Breakdown.mk pl.base_cost tot (pl.base_cost + tot)
          (calculate_group_discount (pl.base_cost + tot) num_members).2
          (calculate_group_discount (pl.base_cost + tot) num_members).1
          (calculate_special_offer_discount
            (calculate_group_discount (pl.base_cost + tot) num_members).1).2
          (calculate_special_offer_discount
            (calculate_group_discount (pl.base_cost + tot) num_members).1).1
          (calculate_premium_surcharge (calculate_special_offer_discount
            (calculate_group_discount (pl.base_cost + tot) num_members).1).1 premium_level).2
          (calculate_premium_surcharge (calculate_special_offer_discount
            (calculate_group_discount (pl.base_cost + tot) num_members).1).1
            premium_level).1) := by
  unfold calculate_total_cost calculate_base_cost calculate_features_cost
  rw [hlp, htot]
  rfl

/-- C8: for every valid selection, `get_summary` renders exactly the breakdown
produced by `calculate_total_cost` on the same arguments through the pure
formatter `buildSummary` (no pricing arithmetic of its own); each
discount/surcharge line appears iff its breakdown amount is non-zero; the
premium tier line appears iff the tier is not NONE; an explicit
no-features marker appears when the feature list is empty; and the report
ends with the total from that same breakdown. -/
theorem get_summary_spec (plan_name : String) (feature_names : List String)
    (num_members : ℤ) (premium_level : PremiumFeatureLevel)
    (hp : (validate_membership_plan defaultManager plan_name).1 = true)
    (hf : (validate_features defaultManager (PyValue.list feature_names)).1 = true)
    (hn : (validate_num_members (PyValue.int num_members)).1 = true) :
    ∃ total b fps,
      calculate_total_cost defaultManager plan_name feature_names num_members
        premium_level = some (total, b) ∧
      featurePairList defaultManager feature_names = some fps ∧
      get_summary defaultManager plan_name feature_names num_members premium_level =
        some (buildSummary plan_name fps num_members premium_level b) ∧
      b.total_cost = total ∧
      ((∃ x, SummaryLine.groupDiscountLine x ∈
          buildSummary plan_name fps num_members premium_level b) ↔
        b.group_discount ≠ 0) ∧
      ((∃ x, SummaryLine.specialDiscountLine x ∈
          buildSummary plan_name fps num_members premium_level b) ↔
        b.special_offer_discount ≠ 0) ∧
      ((∃ x, SummaryLine.surchargeLine x ∈
          buildSummary plan_name fps num_members premium_level b) ↔
        b.premium_surcharge ≠ 0) ∧
      ((∃ l, SummaryLine.premiumLine l ∈
          buildSummary plan_name fps num_members premium_level b) ↔
        premium_level ≠ PremiumFeatureLevel.NONE) ∧
      (feature_names = [] →
        SummaryLine.noFeatures ∈ buildSummary plan_name fps num_members premium_level b) ∧
      [SummaryLine.dashBar, SummaryLine.totalLine b.total_cost, SummaryLine.eqBar] <:+
        buildSummary plan_name fps num_members premium_level b := by
  obtain ⟨pl, hlp⟩ : ∃ pl, defaultManager.membership_plans.lookup plan_name = some pl := by
    cases hlp : defaultManager.membership_plans.lookup plan_name with
    | none =>
        rw [show validate_membership_plan defaultManager plan_name =
          (match defaultManager.membership_plans.lookup plan_name with
           | Option.none => ((false : Bool), some (ErrMsg.planNotFound plan_name))
           | some plan =>
              if !plan.available then
                ((false : Bool), some (ErrMsg.planUnavailable plan_name))
              else ((true : Bool), Option.none)) from rfl, hlp] at hp
        exact Bool.noConfusion hp
    | some pl => exact ⟨pl, rfl⟩
  have hloop : validateFeaturesLoop defaultManager feature_names = (true, Option.none) := by
    rcases validateFeaturesLoop_cases defaultManager feature_names with h | ⟨msg, h⟩
    · exact h
    · rw [show validate_features defaultManager (PyValue.list feature_names) =
        validateFeaturesLoop defaultManager feature_names from rfl, h] at hf
      exact Bool.noConfusion hf
  have hall := (validateFeaturesLoop_ok_iff defaultManager feature_names).mp hloop
  have hallSome : ∀ nm ∈ feature_names,
      ∃ f, defaultManager.additional_features.lookup nm = some f :=
    fun nm hmem => (hall nm hmem).imp (fun f h => h.1)
  obtain ⟨tot, htot⟩ := featuresCostLoop_isSome defaultManager feature_names hallSome 0
  obtain ⟨fps, hfps⟩ := featurePairList_isSome defaultManager feature_names hallSome
  have hcalc := calculate_total_cost_eq defaultManager plan_name feature_names
    num_members premium_level pl tot hlp htot
  have hbase := default_plan_base_nonneg plan_name pl hlp
  have htot0 := featuresCostLoop_nonneg feature_names 0 tot (le_refl 0) htot
  have hsub : (0 : ℚ) ≤ pl.base_cost + tot := by linarith
  have hg := calculate_group_discount_nonneg (pl.base_cost + tot) num_members hsub
  have hsp := calculate_special_offer_discount_nonneg _ hg.1
  have hsur := calculate_premium_surcharge_nonneg _ premium_level hsp.1
  refine ⟨_, _, fps, hcalc, hfps, ?_, rfl, ?_, ?_, ?_, ?_, ?_, ?_⟩
  · unfold get_summary
    rw [hcalc, hfps]
    rfl
  · constructor
    · rintro ⟨x, hx⟩ heq
      have heq2 : (calculate_group_discount (pl.base_cost + tot) num_members).2 = 0 := heq
      simp [buildSummary, mem_ite_lists, heq2] at hx
    · intro hne
      have hne2 : (calculate_group_discount (pl.base_cost + tot) num_members).2 ≠ 0 := hne
      have hpos : 0 < (calculate_group_discount (pl.base_cost + tot) num_members).2 :=
        lt_of_le_of_ne hg.2 (Ne.symm hne2)
      exact ⟨(calculate_group_discount (pl.base_cost + tot) num_members).2,
        by simp [buildSummary, mem_ite_lists, hpos]⟩
  · constructor
    · rintro ⟨x, hx⟩ heq
      have heq2 : (calculate_special_offer_discount
          (calculate_group_discount (pl.base_cost + tot) num_members).1).2 = 0 := heq
      simp [buildSummary, mem_ite_lists, heq2] at hx
    · intro hne
      have hne2 : (calculate_special_offer_discount
          (calculate_group_discount (pl.base_cost + tot) num_members).1).2 ≠ 0 := hne
      have hpos : 0 < (calculate_special_offer_discount
          (calculate_group_discount (pl.base_cost + tot) num_members).1).2 :=
        lt_of_le_of_ne hsp.2 (Ne.symm hne2)
      exact ⟨(calculate_special_offer_discount
          (calculate_group_discount (pl.base_cost + tot) num_members).1).2,
        by simp [buildSummary, mem_ite_lists, hpos]⟩
  · constructor
    · rintro ⟨x, hx⟩ heq
      have heq2 : (calculate_premium_surcharge (calculate_special_offer_discount
          (calculate_group_discount (pl.base_cost + tot) num_members).1).1
          premium_level).2 = 0 := heq
      simp [buildSummary, mem_ite_lists, heq2] at hx
    · intro hne
      have hne2 : (calculate_premium_surcharge (calculate_special_offer_discount
          (calculate_group_discount (pl.base_cost + tot) num_members).1).1
          premium_level).2 ≠ 0 := hne
      have hpos : 0 < (calculate_premium_surcharge (calculate_special_offer_discount
          (calculate_group_discount (pl.base_cost + tot) num_members).1).1
          premium_level).2 :=
        lt_of_le_of_ne hsur (Ne.symm hne2)
      exact ⟨(calculate_premium_surcharge (calculate_special_offer_discount
          (calculate_group_discount (pl.base_cost + tot) num_members).1).1
          premium_level).2,
        by simp [buildSummary, mem_ite_lists, hpos]⟩
  · constructor
    · rintro ⟨l, hl⟩ heq
      simp [buildSummary, mem_ite_lists, heq] at hl
    · intro hne
      exact ⟨premium_level, by simp [buildSummary, mem_ite_lists, hne]⟩
  · intro hemp
    subst hemp
    obtain rfl := Option.some.inj hfps
    simp [buildSummary, mem_ite_lists]
  · unfold buildSummary
    exact List.suffix_append _ _

/-- Witness for C8 at a concrete valid selection: Family + Personal Training,
2 members, EXCLUSIVE_FACILITIES. -/
theorem get_summary_spec_witness :
    ∃ total b fps,
      calculate_total_cost defaultManager "Family" ["Personal Training"] 2
        PremiumFeatureLevel.EXCLUSIVE_FACILITIES = some (total, b) ∧
      featurePairList defaultManager ["Personal Training"] = some fps ∧
      get_summary defaultManager "Family" ["Personal Training"] 2
        PremiumFeatureLevel.EXCLUSIVE_FACILITIES =
        some (buildSummary "Family" fps 2 PremiumFeatureLevel.EXCLUSIVE_FACILITIES b) ∧
      b.total_cost = total ∧
      ((∃ x, SummaryLine.groupDiscountLine x ∈
          buildSummary "Family" fps 2 PremiumFeatureLevel.EXCLUSIVE_FACILITIES b) ↔
        b.group_discount ≠ 0) ∧
      ((∃ x, SummaryLine.specialDiscountLine x ∈
          buildSummary "Family" fps 2 PremiumFeatureLevel.EXCLUSIVE_FACILITIES b) ↔
        b.special_offer_discount ≠ 0) ∧
      ((∃ x, SummaryLine.surchargeLine x ∈
          buildSummary "Family" fps 2 PremiumFeatureLevel.EXCLUSIVE_FACILITIES b) ↔
        b.premium_surcharge ≠ 0) ∧
      ((∃ l, SummaryLine.premiumLine l ∈
          buildSummary "Family" fps 2 PremiumFeatureLevel.EXCLUSIVE_FACILITIES b) ↔
        PremiumFeatureLevel.EXCLUSIVE_FACILITIES ≠ PremiumFeatureLevel.NONE) ∧
      ((["Personal Training"] : List String) = [] →
        SummaryLine.noFeatures ∈
          buildSummary "Family" fps 2 PremiumFeatureLevel.EXCLUSIVE_FACILITIES b) ∧
      [SummaryLine.dashBar, SummaryLine.totalLine b.total_cost, SummaryLine.eqBar] <:+
        buildSummary "Family" fps 2 PremiumFeatureLevel.EXCLUSIVE_FACILITIES b :=
  get_summary_spec "Family" ["Personal Training"] 2
    PremiumFeatureLevel.EXCLUSIVE_FACILITIES rfl rfl rfl
